import Mathlib

/-!
Verification of the Drift Guardian drift-orchestration engine.

This file gives a shallow embedding of the core of the Drift-Guardian
repository (Go): the Redis-backed state store (internal/repository/redis.go),
the threshold policy (internal/service/threshold.go) and the drift
orchestrator (internal/service/drift.go), and proves the advertised
properties of that code.

Modelling choices:
- A Redis hash is an association list of field/value pairs; the store maps
  each key to an optional hash (a missing key has no hash, mirroring Redis
  key existence).
- The orchestrator is written, as in the Go source, against an abstract
  storage interface and an abstract issue-tracker interface whose operations
  may fail; `redisStorage` is the concrete never-failing pure semantics of
  internal/repository/redis.go.
- The issue tracker is an oracle of pure functions returning `Except`;
  the runtime type assertion to the concrete GitLab client in
  HandleThresholdBreach is modelled by the `isGitLab` flag, and the two
  GitLab-specific operations reached through that assertion are fields of
  the oracle that the orchestrator consults only when the flag is set.
- Machine integers are modelled as `Int`; `goAtoi` models Go strconv.Atoi
  including the sign handling and the 64-bit range check.
- `time.Now()` in ProcessDriftDetection is modelled by an explicit `now`
  argument.
-/

namespace DriftGuardian

/-- Go error values as produced with fmt.Errorf: either a base message or a
message wrapping a cause (the %w verb). -/
inductive GoErr where
  | base (msg : String)
  | wrap (msg : String) (cause : GoErr)
  deriving DecidableEq, Repr

/-- Innermost cause of a wrapped Go error. -/
def GoErr.root : GoErr → GoErr
  | .base m => .base m
  | .wrap _ e => e.root

/-- Whether a character is an ASCII decimal digit. -/
def isAsciiDigit (c : Char) : Bool := 48 ≤ c.toNat && c.toNat ≤ 57

/-- Numeric value of a list of ASCII digits, most significant first. -/
def digitsVal (cs : List Char) : Nat :=
  cs.foldl (fun a c => a * 10 + (c.toNat - 48)) 0

/-- Model of Go strconv.Atoi: an optional single sign followed by one or
more ASCII digits, rejected when the value does not fit in a signed 64-bit
integer; `none` is the error case. -/
def goAtoi (s : String) : Option Int :=
  let cs := s.toList
  let signed : Int × List Char :=
    match cs with
    | '+' :: rest => (1, rest)
    | '-' :: rest => (-1, rest)
    | _ => (1, cs)
  if signed.2 = [] then none
  else if signed.2.all isAsciiDigit then
    let n : Int := signed.1 * (digitsVal signed.2 : Int)
    if n < -(2 ^ 63) ∨ (2 ^ 63 - 1 : Int) < n then none else some n
  else none

/-- A Redis hash: field/value association list (first binding wins). -/
abbrev Hash := List (String × String)

/-- Look a field up in a hash. -/
def hashGet : Hash → String → Option String
  | [], _ => none
  | (g, w) :: rest, f => if g = f then some w else hashGet rest f

/-- Set a field in a hash, overwriting the first existing binding. -/
def hashSet : Hash → String → String → Hash
  | [], f, v => [(f, v)]
  | (g, w) :: rest, f, v => if g = f then (f, v) :: rest else (g, w) :: hashSet rest f v

/-- The key space of the store: each key optionally holds a hash. -/
abbrev Store := String → Option Hash

/-- Redis HSET at the store level: creates the key when absent. -/
def storeHSet (s : Store) (k f v : String) : Store :=
  fun k' => if k' = k then some (hashSet ((s k).getD []) f v) else s k'

/-- Value of one field of one key, with the empty string for a missing key
or field (the contract of the repository GetField). -/
def storeField (s : Store) (k f : String) : String :=
  ((s k).bind (fun h => hashGet h f)).getD ""

/-- Process configuration (internal/config): the fields the orchestrator and
the threshold policy read. -/
structure Config where
  driftThreshold : Int
  comparisonBranch : String
  deriving DecidableEq, Repr

/-- Payload of one pipeline-run report (internal/service/interfaces.go). -/
structure Payload where
  repoName : String
  branch : String
  environment : String
  environmentTier : String
  driftThreshold : String
  projectID : String
  operation : String
  exitCode : Int
  scheduled : Bool
  timestamp : String
  planOutput : String
  deriving DecidableEq, Repr

/-- Result of drift detection processing (internal/service/interfaces.go);
the Go Log field is a one-entry map under the key "log", modelled by the
entry itself. -/
structure DriftResult where
  environmentTier : String
  projectID : String
  driftIncrement : String
  issueID : String
  issueURL : String
  log : String
  deriving DecidableEq, Repr

/-- Environment identification data passed to the breach and reset
procedures (internal/service/interfaces.go). -/
structure EnvironmentInfo where
  repoName : String
  environment : String
  projectID : String
  key : String
  deriving DecidableEq, Repr

/-- A GitLab issue as surfaced by the client (internal/client/interfaces.go). -/
structure Issue where
  id : Int
  projectId : Int
  title : String
  webURL : String
  state : String
  deriving DecidableEq, Repr

/-- The storage interface the orchestrator is written against
(internal/repository/interfaces.go). Every operation may fail; operations
thread the store state explicitly. -/
structure StorageRepository (σ : Type) where
  initEnvironment : σ → String → String → String → String → Except GoErr (Bool × σ)
  updateOperationLog : σ → String → String → String → Except GoErr σ
  incrementDrift : σ → String → Except GoErr (Int × σ)
  resetDrift : σ → String → Except GoErr σ
  getEnvironmentData : σ → String → Except GoErr (Hash × σ)
  setField : σ → String → String → String → Except GoErr σ
  getField : σ → String → String → Except GoErr (String × σ)
  storePlanOutput : σ → String → String → Except GoErr σ

/-- The issue-tracker oracle. `getIssueStatus` and `closeIssue` are the
interface operations (internal/client/interfaces.go); `isGitLab` models
whether the runtime type assertion to the concrete *client.GitLabClient
succeeds, and `updateIssueDescription` / `createDriftIssue` are the two
GitLab-specific operations reached only through that assertion. -/
structure IssueTracker where
  getIssueStatus : Int → Int → Except GoErr Bool
  closeIssue : Int → Int → String → Except GoErr Unit
  isGitLab : Bool
  updateIssueDescription : Int → Int → String → String → Int → Int → String → Except GoErr Unit
  createDriftIssue : Int → String → String → Int → Int → String → Except GoErr Issue

/-- Replace the whole hash stored at one key. -/
def storeSetKey (s : Store) (k : String) (h : Hash) : Store :=
  fun k' => if k' = k then some h else s k'

/-- Fallback applied by the repository when the supplied threshold string is
empty: the DEFAULT_DRIFT_THRESHOLD process environment value, or "1"
(redis.go lines 47 to 54). -/
def initThreshold (envDefault threshold : String) : String :=
  if threshold = "" then (if envDefault = "" then "1" else envDefault) else threshold

/-- The initial hash written for a fresh key (redis.go lines 56 to 62). -/
def initHash (envDefault tier projectID threshold : String) : Hash :=
  [("driftThreshold", initThreshold envDefault threshold),
   ("environmentTier", tier), ("projectID", projectID), ("driftIncrement", "0")]

/-- InitializeEnvironment (redis.go): skip when the key already exists,
otherwise create the hash with threshold, tier, project id and a zero drift
counter. `envDefault` models the DEFAULT_DRIFT_THRESHOLD process environment
variable consulted when the supplied threshold is empty. -/
def redisInitEnvironment (envDefault : String) (s : Store)
    (key tier projectID threshold : String) : Except GoErr (Bool × Store) :=
  if (s key).isSome then .ok (false, s)
  else .ok (true, storeSetKey s key (initHash envDefault tier projectID threshold))

/-- UpdateOperationLog (redis.go): overwrite the log field with a JSON-like
fragment of timestamp and operation. -/
def redisUpdateOperationLog (s : Store) (key timestamp operation : String) :
    Except GoErr Store :=
  let logEntry :=
    "\x7b\"timestamp\": \"" ++ timestamp ++ "\", \"operation\": \"" ++ operation ++ "\"\x7d"
  .ok (storeHSet s key "log" logEntry)

/-- IncrementDrift (redis.go): Redis HINCRBY semantics — a missing key or
field counts as 0, a non-integer stored value is an error, otherwise the
field is replaced by its successor which is also returned. -/
def redisIncrementDrift (s : Store) (key : String) : Except GoErr (Int × Store) :=
  let cur := (hashGet ((s key).getD []) "driftIncrement").getD "0"
  match goAtoi cur with
  | none => .error (.wrap "error incrementing drift" (.base "hash value is not an integer"))
  | some n => .ok (n + 1, storeHSet s key "driftIncrement" (toString (n + 1)))

/-- ResetDrift (redis.go): set the drift counter field to "0". -/
def redisResetDrift (s : Store) (key : String) : Except GoErr Store :=
  .ok (storeHSet s key "driftIncrement" "0")

/-- GetEnvironmentData (redis.go): HGETALL; an absent key yields an empty
map which the repository turns into an error. -/
def redisGetEnvironmentData (s : Store) (key : String) : Except GoErr (Hash × Store) :=
  let h := (s key).getD []
  if h = [] then .error (.base ("no data found for key: " ++ key)) else .ok (h, s)

/-- SetField (redis.go): HSET of a single field. -/
def redisSetField (s : Store) (key field value : String) : Except GoErr Store :=
  .ok (storeHSet s key field value)

/-- GetField (redis.go): HGET, with redis.Nil (missing key or field) mapped
to the empty string and no error. -/
def redisGetField (s : Store) (key field : String) : Except GoErr (String × Store) :=
  .ok (storeField s key field, s)

/-- StorePlanOutput (redis.go): HSET of the planOutput field. -/
def redisStorePlanOutput (s : Store) (key planOutput : String) : Except GoErr Store :=
  .ok (storeHSet s key "planOutput" planOutput)

/-- The concrete Redis-backed repository (internal/repository/redis.go) as a
pure store semantics with no connectivity failures. -/
def redisStorage (envDefault : String) : StorageRepository Store where
  initEnvironment := redisInitEnvironment envDefault
  updateOperationLog := redisUpdateOperationLog
  incrementDrift := redisIncrementDrift
  resetDrift := redisResetDrift
  getEnvironmentData := redisGetEnvironmentData
  setField := redisSetField
  getField := redisGetField
  storePlanOutput := redisStorePlanOutput

/-- GetThreshold (threshold.go): the stored driftThreshold field when it is
non-empty and parses, the configured default when empty, an error when it
does not parse. -/
def getThreshold (S : StorageRepository σ) (cfg : Config) (s : σ) (key : String) :
    Except GoErr (Int × σ) :=
  match S.getField s key "driftThreshold" with
  | .error e => .error (.wrap "failed to get drift threshold from storage" e)
  | .ok (thresholdStr, s) =>
    if thresholdStr = "" then .ok (cfg.driftThreshold, s)
    else
      match goAtoi thresholdStr with
      | none => .error (.wrap "invalid threshold value" (.base "strconv.Atoi: invalid syntax"))
      | some t => .ok (t, s)

/-- CheckThreshold (threshold.go): whether the current drift count meets or
exceeds the effective threshold. -/
def checkThreshold (S : StorageRepository σ) (cfg : Config) (s : σ) (key : String)
    (currentDrift : Int) : Except GoErr (Bool × σ) :=
  match getThreshold S cfg s key with
  | .error e => .error (.wrap "failed to get threshold" e)
  | .ok (threshold, s) => .ok (decide (currentDrift ≥ threshold), s)

/-- ValidatePayload (drift.go): first missing required field, checked in
source order, or `none` when the payload is valid. Validation is a pure
function of the payload; it touches no state. -/
def validatePayload (p : Payload) : Option String :=
  if p.repoName = "" then some "missing repoName in payload"
  else if p.branch = "" then some "missing branchName in payload"
  else if p.environment = "" then some "missing environment in payload"
  else if p.environmentTier = "" then some "missing environmentTier in payload"
  else if p.projectID = "" then some "missing projectId in payload"
  else if p.operation = "" then some "invalid terraform operation in payload"
  else none

/-- GenerateKey (drift.go): the unescaped repo:environment join. -/
def generateKey (repoName environment : String) : String :=
  repoName ++ ":" ++ environment

/-- The EnvironmentInfo value ProcessDriftDetection builds for the breach
and reset procedures. -/
def envInfoOf (p : Payload) (key : String) : EnvironmentInfo :=
  { repoName := p.repoName, environment := p.environment,
    projectID := p.projectID, key := key }

/-- Effective threshold string passed to initialization: the payload value,
or the configured default rendered with strconv.Itoa when empty (drift.go). -/
def effThreshold (cfg : Config) (p : Payload) : String :=
  if p.driftThreshold = "" then toString cfg.driftThreshold else p.driftThreshold

/-- Effective timestamp for the operation log: the payload value, or the
current time when empty (drift.go). -/
def effTimestamp (now : String) (p : Payload) : String :=
  if p.timestamp = "" then now else p.timestamp

/-- The escalation condition of drift.go line 114: scheduled plan run with
exit code 2 on the configured comparison branch. -/
abbrev escalationCond (cfg : Config) (p : Payload) : Prop :=
  p.scheduled = true ∧ p.operation = "plan" ∧ p.exitCode = 2 ∧
    p.branch = cfg.comparisonBranch

/-- The resolution condition of drift.go line 160: an apply run with any
exit code, or a clean plan run on the comparison branch. -/
abbrev resolutionCond (cfg : Config) (p : Payload) : Prop :=
  p.operation = "apply" ∨
    (p.operation = "plan" ∧ p.exitCode = 0 ∧ p.branch = cfg.comparisonBranch)

/-- Creation path of HandleThresholdBreach (drift.go lines 319 to 345):
behind the GitLab type assertion, create the drift issue and persist its id
and URL in two separate field writes. -/
def handleBreachCreate (S : StorageRepository σ) (T : IssueTracker) (s : σ)
    (env : EnvironmentInfo) (driftCount projectID thresholdValue : Int)
    (planOutput : String) : Except GoErr σ :=
  if T.isGitLab then
    match T.createDriftIssue projectID env.repoName env.environment driftCount
        thresholdValue planOutput with
    | .error e => .error (.wrap "failed to create drift issue" e)
    | .ok issue =>
      match S.setField s env.key "issueID" (toString issue.id) with
      | .error e => .error (.wrap "failed to store issue ID" e)
      | .ok s =>
        match S.setField s env.key "issueURL" issue.webURL with
        | .error e => .error (.wrap "failed to store issue URL" e)
        | .ok s => .ok s
  else .ok s

/-- HandleThresholdBreach after the planOutput read (drift.go lines 266 to
345): read the effective threshold, check any stored issue id, update the
open issue behind the GitLab type assertion, otherwise fall through to
creation. -/
def handleBreachTail (S : StorageRepository σ) (T : IssueTracker) (cfg : Config)
    (s : σ) (env : EnvironmentInfo) (driftCount projectID existingIssueID : Int)
    (planOutput : String) : Except GoErr σ :=
  match getThreshold S cfg s env.key with
  | .error e => .error (.wrap "failed to get threshold value" e)
  | .ok (thresholdValue, s) =>
    if 0 < existingIssueID then
      match T.getIssueStatus projectID existingIssueID with
      | .error e => .error (.wrap "failed to check existing issue status" e)
      | .ok isOpen =>
        if isOpen then
          if T.isGitLab then
            match T.updateIssueDescription projectID existingIssueID env.repoName
                env.environment driftCount thresholdValue planOutput with
            | .error e => .error (.wrap "failed to update existing issue" e)
            | .ok _ => .ok s
          else .ok s
        else
          handleBreachCreate S T s env driftCount projectID thresholdValue planOutput
    else
      handleBreachCreate S T s env driftCount projectID thresholdValue planOutput

/-- HandleThresholdBreach (drift.go lines 211 to 348): no-op below the
threshold; above it, parse the project id, read the stored issue id (an
empty or unparseable value counts as 0), read the plan output discarding
any error, and continue with update or creation. -/
def handleThresholdBreach (S : StorageRepository σ) (T : IssueTracker) (cfg : Config)
    (s : σ) (env : EnvironmentInfo) (driftCount : Int) : Except GoErr σ :=
  match checkThreshold S cfg s env.key driftCount with
  | .error e => .error (.wrap "failed to check threshold" e)
  | .ok (exceeded, s) =>
    if exceeded = false then .ok s
    else
      match goAtoi env.projectID with
      | none => .error (.wrap "invalid project ID" (.base "strconv.Atoi: invalid syntax"))
      | some projectID =>
        match S.getField s env.key "issueID" with
        | .error e => .error (.wrap "failed to get existing issue ID" e)
        | .ok (existingIssueIDStr, s) =>
          let existingIssueID : Int :=
            if existingIssueIDStr = "" then 0 else (goAtoi existingIssueIDStr).getD 0
          match S.getField s env.key "planOutput" with
          | .error _ =>
            handleBreachTail S T cfg s env driftCount projectID existingIssueID ""
          | .ok (planOutput, s) =>
            handleBreachTail S T cfg s env driftCount projectID existingIssueID planOutput

/-- ResetDriftIncrement (drift.go lines 351 to 430): zero the counter; then
best-effort issue cleanup — a failed or empty issue id read, or an invalid
id, ends the procedure successfully; an open tracked issue is closed and
both issue fields are cleared. -/
def resetDriftIncrement (S : StorageRepository σ) (T : IssueTracker) (s : σ)
    (env : EnvironmentInfo) (operation : String) : Except GoErr σ :=
  match S.resetDrift s env.key with
  | .error e => .error (.wrap "failed to reset drift" e)
  | .ok s =>
    match S.getField s env.key "issueID" with
    | .error _ => .ok s
    | .ok (issueIDStr, s) =>
      if issueIDStr = "" then .ok s
      else
        match goAtoi issueIDStr with
        | none => .ok s
        | some issueID =>
          if issueID ≤ 0 then .ok s
          else
            match goAtoi env.projectID with
            | none => .error (.wrap "invalid project ID" (.base "strconv.Atoi: invalid syntax"))
            | some projectID =>
              match T.getIssueStatus projectID issueID with
              | .error e => .error (.wrap "failed to check issue status" e)
              | .ok isOpen =>
                if isOpen then
                  match T.closeIssue projectID issueID operation with
                  | .error e => .error (.wrap "failed to delete issue" e)
                  | .ok _ =>
                    match S.setField s env.key "issueID" "" with
                    | .error e => .error (.wrap "failed to clear issue ID" e)
                    | .ok s =>
                      match S.setField s env.key "issueURL" "" with
                      | .error e => .error (.wrap "failed to clear issue URL" e)
                      | .ok s => .ok s
                else .ok s

/-- Plan output persistence inside the escalation branch (drift.go lines
136 to 142): only when the payload carried output. -/
def storePlanIfAny (S : StorageRepository σ) (s : σ) (key planOutput : String) :
    Except GoErr σ :=
  if planOutput = "" then .ok s
  else
    match S.storePlanOutput s key planOutput with
    | .error e => .error (.wrap "failed to store plan output" e)
    | .ok s => .ok s

/-- The escalation branch of ProcessDriftDetection (drift.go lines 112 to
157): atomic increment, optional plan-output persistence, then the
threshold breach procedure with the new count. -/
def escalationStep (S : StorageRepository σ) (T : IssueTracker) (cfg : Config)
    (s : σ) (p : Payload) (key : String) : Except GoErr σ :=
  match S.incrementDrift s key with
  | .error e => .error (.wrap "failed to increment drift" e)
  | .ok (incrementVal, s) =>
    match storePlanIfAny S s key p.planOutput with
    | .error e => .error e
    | .ok s =>
      match handleThresholdBreach S T cfg s (envInfoOf p key) incrementVal with
      | .error e => .error (.wrap "failed to handle threshold breach" e)
      | .ok s => .ok s

/-- ProcessDriftDetection (drift.go lines 73 to 208): key derivation,
initialization, log update, conditional escalation, conditional resolution,
and final read-back of the record into the result. -/
def processDriftDetection (S : StorageRepository σ) (T : IssueTracker) (cfg : Config)
    (now : String) (s : σ) (p : Payload) : Except GoErr (DriftResult × σ) :=
  let key := generateKey p.repoName p.environment
  match S.initEnvironment s key p.environmentTier p.projectID (effThreshold cfg p) with
  | .error e => .error (.wrap "failed to initialize environment" e)
  | .ok (_, s) =>
    match S.updateOperationLog s key (effTimestamp now p) p.operation with
    | .error e => .error (.wrap "failed to update operation log" e)
    | .ok s =>
      match (if escalationCond cfg p then escalationStep S T cfg s p key else .ok s) with
      | .error e => .error e
      | .ok s =>
        match (if resolutionCond cfg p then
                 match resetDriftIncrement S T s (envInfoOf p key) p.operation with
                 | .error e => .error (.wrap "failed to reset drift increment" e)
                 | .ok s => .ok s
               else (.ok s : Except GoErr σ)) with
        | .error e => .error e
        | .ok s =>
          match S.getEnvironmentData s key with
          | .error e => .error (.wrap "failed to get environment data" e)
          | .ok (data, s) =>
            .ok ({ environmentTier := (hashGet data "environmentTier").getD ""
                 , projectID := (hashGet data "projectID").getD ""
                 , driftIncrement := (hashGet data "driftIncrement").getD ""
                 , issueID := (hashGet data "issueID").getD ""
                 , issueURL := (hashGet data "issueURL").getD ""
                 , log := (hashGet data "log").getD "" }, s)

/-- A tracker oracle whose dynamic type is not the concrete GitLab client:
the type assertion fails, the interface calls succeed. -/
def plainTracker : IssueTracker where
  getIssueStatus := fun _ _ => .ok false
  closeIssue := fun _ _ _ => .ok ()
  isGitLab := false
  updateIssueDescription := fun _ _ _ _ _ _ _ => .ok ()
  createDriftIssue := fun _ _ _ _ _ _ => .ok ⟨7, 42, "Drift: prod", "https://gl/7", "opened"⟩

/-- A GitLab tracker oracle with every call succeeding; the status oracle
reports issue 5 open and everything else closed. -/
def gitlabTracker : IssueTracker where
  getIssueStatus := fun _ i => .ok (i = 5)
  closeIssue := fun _ _ _ => .ok ()
  isGitLab := true
  updateIssueDescription := fun _ _ _ _ _ _ _ => .ok ()
  createDriftIssue := fun _ _ _ _ _ _ => .ok ⟨7, 42, "Drift: prod", "https://gl/7", "opened"⟩

/-- The empty store. -/
def emptyStore : Store := fun _ => none

/-- Example configuration: default threshold 1, comparison branch main. -/
def exampleConfig : Config := ⟨1, "main"⟩

/-- A scheduled plan report with exit code 2 on the comparison branch. -/
def examplePlanPayload : Payload :=
  ⟨"svc", "main", "prod", "prod", "", "42", "plan", 2, true, "t1", ""⟩

/-- An apply report for the same environment. -/
def exampleApplyPayload : Payload :=
  ⟨"svc", "main", "prod", "prod", "", "42", "apply", 0, false, "t2", ""⟩

/-- A store already holding a record for svc:prod with a tracked issue. -/
def exampleRecordStore : Store :=
  storeSetKey emptyStore "svc:prod"
    [("driftThreshold", "1"), ("environmentTier", "prod"), ("projectID", "42"),
     ("driftIncrement", "2"), ("issueID", "5"), ("issueURL", "https://gl/5")]

/-- Environment identification for the svc:prod examples. -/
def exampleEnv : EnvironmentInfo := ⟨"svc", "prod", "42", "svc:prod"⟩

/-- Final store of a successful run, for concrete examples. -/
def storeOfRun (x : Except GoErr (DriftResult × Store)) : Store :=
  match x with
  | .ok (_, st) => st
  | .error _ => fun _ => none

/-- Result value of a successful run, for concrete examples. -/
def resultOfRun (x : Except GoErr (DriftResult × Store)) : DriftResult :=
  match x with
  | .ok (res, _) => res
  | .error _ => ⟨"", "", "", "", "", ""⟩

/-- Final store of a successful breach or reset procedure, for concrete
examples. -/
def storeOfStep (x : Except GoErr Store) : Store :=
  match x with
  | .ok st => st
  | .error _ => fun _ => none

/-- Whether a run of the orchestrator ended in success. -/
def runSucceeds (x : Except GoErr (DriftResult × Store)) : Bool :=
  match x with
  | .ok _ => true
  | .error _ => false

/-- A storage implementation that behaves like the Redis repository except
that every read of the issueID field fails with a connectivity error. -/
def faultyIssueReadStorage : StorageRepository Store :=
  { redisStorage "" with
    getField := fun s key f =>
      if f = "issueID" then .error (.base "redis: connection refused")
      else .ok (storeField s key f, s) }

/-- A storage implementation that behaves like the Redis repository except
that every read of the planOutput field fails with a connectivity error. -/
def faultyPlanReadStorage : StorageRepository Store :=
  { redisStorage "" with
    getField := fun s key f =>
      if f = "planOutput" then .error (.base "redis: connection refused")
      else .ok (storeField s key f, s) }

/-- The counter value the atomic increment starts from: the stored
driftIncrement field read as an integer, with a missing key, missing field
or unparseable value counting as 0 (the HINCRBY read in redis.go; an
unparseable value actually makes the increment fail, so runs that reach the
increment successfully always start from the parsed value). -/
def priorDrift (s : Store) (key : String) : Int :=
  (goAtoi ((hashGet ((s key).getD []) "driftIncrement").getD "0")).getD 0

/-! Basic lemmas about the store model. -/

@[simp] theorem hashGet_hashSet (h : Hash) (f v f' : String) :
    hashGet (hashSet h f v) f' = if f = f' then some v else hashGet h f' := by
  induction h with
  | nil => simp [hashSet, hashGet]
  | cons p rest ih =>
    obtain ⟨g, w⟩ := p
    by_cases hgf : g = f
    · subst hgf
      by_cases hff' : g = f' <;> simp [hashSet, hashGet, hff']
    · by_cases hff' : f = f'
      · subst hff'
        simp [hashSet, hashGet, hgf, ih]
      · have hf'f : ¬f' = f := fun hcontra => hff' hcontra.symm
        by_cases hgf' : g = f'
        · subst hgf'
          simp [hashSet, hashGet, hgf, ih, hff', hf'f]
        · simp [hashSet, hashGet, hgf, hgf', ih, hff']

@[simp] theorem storeField_storeHSet (s : Store) (k f v k' f' : String) :
    storeField (storeHSet s k f v) k' f' =
      if k' = k then (if f = f' then v else storeField s k f') else storeField s k' f' := by
  by_cases hk : k' = k
  · by_cases hf : f = f'
    · simp [storeField, storeHSet, hk, hf]
    · simp [storeField, storeHSet, hk, hf]
      cases s k <;> simp [hashGet, storeField]
  · simp [storeField, storeHSet, hk]

@[simp] theorem storeHSet_isSome (s : Store) (k f v k' : String) :
    ((storeHSet s k f v) k').isSome = if k' = k then true else (s k').isSome := by
  by_cases hk : k' = k <;> simp [storeHSet, hk]

@[simp] theorem storeField_storeSetKey (s : Store) (k : String) (h : Hash) (k' f : String) :
    storeField (storeSetKey s k h) k' f =
      if k' = k then (hashGet h f).getD "" else storeField s k' f := by
  by_cases hk : k' = k <;> simp [storeField, storeSetKey, hk]

@[simp] theorem storeSetKey_isSome (s : Store) (k : String) (h : Hash) (k' : String) :
    ((storeSetKey s k h) k').isSome = if k' = k then true else (s k').isSome := by
  by_cases hk : k' = k <;> simp [storeSetKey, hk]

theorem hashSet_ne_nil (h : Hash) (f v : String) : hashSet h f v ≠ [] := by
  cases h with
  | nil => simp [hashSet]
  | cons p rest =>
    obtain ⟨g, w⟩ := p
    by_cases hgf : g = f <;> simp [hashSet, hgf]

@[simp] theorem storeHSet_at_key (s : Store) (k f v : String) :
    (storeHSet s k f v) k = some (hashSet ((s k).getD []) f v) := by
  simp [storeHSet]

/-! Characterization of the concrete threshold policy over the Redis
semantics. -/

theorem getThreshold_redis (d : String) (cfg : Config) (s : Store) (key : String) :
    getThreshold (redisStorage d) cfg s key =
      (if storeField s key "driftThreshold" = "" then .ok (cfg.driftThreshold, s)
       else
         match goAtoi (storeField s key "driftThreshold") with
         | none => .error (.wrap "invalid threshold value" (.base "strconv.Atoi: invalid syntax"))
         | some t => .ok (t, s)) := by
  simp [getThreshold, redisStorage, redisGetField]

theorem checkThreshold_redis (d : String) (cfg : Config) (s : Store) (key : String)
    (n : Int) :
    checkThreshold (redisStorage d) cfg s key n =
      (if storeField s key "driftThreshold" = "" then .ok (decide (n ≥ cfg.driftThreshold), s)
       else
         match goAtoi (storeField s key "driftThreshold") with
         | none => .error (.wrap "failed to get threshold"
             (.wrap "invalid threshold value" (.base "strconv.Atoi: invalid syntax")))
         | some t => .ok (decide (n ≥ t), s)) := by
  rw [checkThreshold, getThreshold_redis]
  by_cases hthr : storeField s key "driftThreshold" = ""
  · simp [hthr]
  · simp only [hthr, if_neg, ite_false]
    cases goAtoi (storeField s key "driftThreshold") <;> simp

theorem getField_redis (d : String) (s : Store) (k f : String) :
    (redisStorage d).getField s k f = .ok (storeField s k f, s) := rfl

theorem setField_redis (d : String) (s : Store) (k f v : String) :
    (redisStorage d).setField s k f v = .ok (storeHSet s k f v) := rfl

theorem resetDrift_redis (d : String) (s : Store) (k : String) :
    (redisStorage d).resetDrift s k = .ok (storeHSet s k "driftIncrement" "0") := rfl

theorem getThreshold_redis_split (d : String) (cfg : Config) (s : Store) (key : String) :
    (∃ e, getThreshold (redisStorage d) cfg s key = .error e) ∨
      (∃ t, getThreshold (redisStorage d) cfg s key = .ok (t, s)) := by
  rw [getThreshold_redis]
  by_cases hthr : storeField s key "driftThreshold" = ""
  · right; exact ⟨cfg.driftThreshold, by simp [hthr]⟩
  · simp only [hthr, ite_false]
    cases goAtoi (storeField s key "driftThreshold") with
    | none => left; exact ⟨_, rfl⟩
    | some t => right; exact ⟨t, rfl⟩

theorem checkThreshold_redis_split (d : String) (cfg : Config) (s : Store) (key : String)
    (n : Int) :
    (∃ e, checkThreshold (redisStorage d) cfg s key n = .error e) ∨
      (∃ b, checkThreshold (redisStorage d) cfg s key n = .ok (b, s)) := by
  unfold checkThreshold
  rcases getThreshold_redis_split d cfg s key with ⟨e, he⟩ | ⟨t, ht⟩
  · rw [he]; left; exact ⟨_, rfl⟩
  · rw [ht]; right; exact ⟨_, rfl⟩

/-! Shape of the store after the breach and reset procedures over the
concrete Redis semantics: the breach procedure either leaves the store
untouched or writes exactly the id and URL of one created issue; the reset
procedure zeroes the counter and either leaves the issue fields alone or
clears both. -/

theorem breachCreate_redis_ok (d : String) (T : IssueTracker) (s : Store)
    (env : EnvironmentInfo) (n pid tv : Int) (po : String) (s' : Store)
    (h : handleBreachCreate (redisStorage d) T s env n pid tv po = .ok s') :
    s' = s ∨ ∃ issue : Issue,
      s' = storeHSet (storeHSet s env.key "issueID" (toString issue.id))
        env.key "issueURL" issue.webURL := by
  unfold handleBreachCreate at h
  by_cases hg : T.isGitLab
  · simp only [hg, if_true] at h
    cases hcr : T.createDriftIssue pid env.repoName env.environment n tv po with
    | error e => rw [hcr] at h; simp at h
    | ok issue =>
      rw [hcr] at h
      simp [redisStorage, redisSetField] at h
      right; exact ⟨issue, h.symm⟩
  · simp only [hg, if_false, Bool.false_eq_true] at h
    simp at h
    left; exact h.symm

theorem breachTail_redis_ok (d : String) (T : IssueTracker) (cfg : Config) (s : Store)
    (env : EnvironmentInfo) (n pid eid : Int) (po : String) (s' : Store)
    (h : handleBreachTail (redisStorage d) T cfg s env n pid eid po = .ok s') :
    s' = s ∨ ∃ issue : Issue,
      s' = storeHSet (storeHSet s env.key "issueID" (toString issue.id))
        env.key "issueURL" issue.webURL := by
  unfold handleBreachTail at h
  rcases getThreshold_redis_split d cfg s env.key with ⟨e, he⟩ | ⟨tv, ht⟩
  · rw [he] at h; simp at h
  · rw [ht] at h
    by_cases heid : 0 < eid
    · simp only [heid, if_true] at h
      cases hst : T.getIssueStatus pid eid with
      | error e => rw [hst] at h; simp at h
      | ok isOpen =>
        rw [hst] at h
        cases isOpen with
        | true =>
          by_cases hg : T.isGitLab
          · simp only [if_true, hg] at h
            cases hupd : T.updateIssueDescription pid eid env.repoName env.environment
                n tv po with
            | error e => rw [hupd] at h; simp at h
            | ok u => rw [hupd] at h; simp at h; left; exact h.symm
          · simp only [hg, if_false, Bool.false_eq_true, if_true] at h
            simp at h; left; exact h.symm
        | false =>
          simp only [if_false, Bool.false_eq_true] at h
          exact breachCreate_redis_ok d T s env n pid tv po s' h
    · simp only [heid, if_false] at h
      exact breachCreate_redis_ok d T s env n pid tv po s' h

theorem breach_redis_ok (d : String) (T : IssueTracker) (cfg : Config) (s : Store)
    (env : EnvironmentInfo) (n : Int) (s' : Store)
    (h : handleThresholdBreach (redisStorage d) T cfg s env n = .ok s') :
    s' = s ∨ ∃ issue : Issue,
      s' = storeHSet (storeHSet s env.key "issueID" (toString issue.id))
        env.key "issueURL" issue.webURL := by
  unfold handleThresholdBreach at h
  rcases checkThreshold_redis_split d cfg s env.key n with ⟨e, he⟩ | ⟨b, hb⟩
  · rw [he] at h; simp at h
  · rw [hb] at h
    by_cases hbv : b = false
    · simp only [hbv, if_true, ite_true] at h
      simp at h; left; exact h.symm
    · simp only [hbv, ite_false] at h
      cases hpid : goAtoi env.projectID with
      | none => rw [hpid] at h; simp at h
      | some pid =>
        rw [hpid] at h
        simp only [redisStorage, redisGetField] at h
        exact breachTail_redis_ok d T cfg s env n pid _ _ s' h

theorem reset_redis_ok (d : String) (T : IssueTracker) (s : Store)
    (env : EnvironmentInfo) (op : String) (s' : Store)
    (h : resetDriftIncrement (redisStorage d) T s env op = .ok s') :
    s' = storeHSet s env.key "driftIncrement" "0" ∨
      s' = storeHSet (storeHSet (storeHSet s env.key "driftIncrement" "0")
        env.key "issueID" "") env.key "issueURL" "" := by
  unfold resetDriftIncrement at h
  simp only [redisStorage, redisResetDrift, redisGetField] at h
  split at h
  · simp at h; left; exact h.symm
  · split at h
    · simp at h; left; exact h.symm
    · split at h
      · simp at h; left; exact h.symm
      · split at h
        · simp at h
        · split at h
          · simp at h
          · split at h
            · split at h
              · simp at h
              · simp [redisSetField] at h
                right; exact h.symm
            · simp at h; left; exact h.symm

theorem storePlanIfAny_redis_ok (d : String) (s : Store) (key po : String) (s₂ : Store)
    (h : storePlanIfAny (redisStorage d) s key po = .ok s₂) :
    s₂ = s ∨ s₂ = storeHSet s key "planOutput" po := by
  unfold storePlanIfAny at h
  by_cases hpo : po = ""
  · rw [if_pos hpo] at h; simp at h; left; exact h.symm
  · rw [if_neg hpo] at h
    simp [redisStorage, redisStorePlanOutput] at h
    right; exact h.symm

theorem escal_not_resol (cfg : Config) (p : Payload) (h : escalationCond cfg p) :
    ¬resolutionCond cfg p := by
  obtain ⟨hs, hop, hec, hbr⟩ := h
  rintro (hap | ⟨hpl, he0, hb⟩)
  · rw [hop] at hap
    exact absurd hap (by decide)
  · omega

@[simp] theorem hashGet_initHash_increment (d tier pid thr : String) :
    hashGet (initHash d tier pid thr) "driftIncrement" = some "0" := by
  simp [initHash, hashGet]

@[simp] theorem hashGet_initHash_tier (d tier pid thr : String) :
    hashGet (initHash d tier pid thr) "environmentTier" = some tier := by
  simp [initHash, hashGet]

@[simp] theorem hashGet_initHash_projectID (d tier pid thr : String) :
    hashGet (initHash d tier pid thr) "projectID" = some pid := by
  simp [initHash, hashGet]

@[simp] theorem hashGet_initHash_threshold (d tier pid thr : String) :
    hashGet (initHash d tier pid thr) "driftThreshold" = some (initThreshold d thr) := by
  simp [initHash, hashGet]

theorem storePlanIfAny_redis_ne_error (d : String) (s : Store) (k po : String)
    (e : GoErr) : storePlanIfAny (redisStorage d) s k po ≠ .error e := by
  unfold storePlanIfAny
  by_cases hpo : po = ""
  · rw [if_pos hpo]; simp
  · rw [if_neg hpo]; simp [redisStorage, redisStorePlanOutput]

theorem escalStep_redis_fields (d : String) (T : IssueTracker) (cfg : Config)
    (s : Store) (p : Payload) (k : String) (s₂ : Store)
    (h : escalationStep (redisStorage d) T cfg s p k = .ok s₂) :
    storeField s₂ k "driftIncrement" =
      toString ((goAtoi ((hashGet ((s k).getD []) "driftIncrement").getD "0")).getD 0 + 1) ∧
    (∀ f, f ≠ "driftIncrement" → f ≠ "planOutput" → f ≠ "issueID" → f ≠ "issueURL" →
      storeField s₂ k f = storeField s k f) ∧
    ((s₂ k).getD []) ≠ [] := by
  unfold escalationStep at h
  simp only [redisStorage, redisIncrementDrift] at h
  split at h
  · simp at h
  · rename_i nv sp1 hAt
    cases hcur : goAtoi ((hashGet ((s k).getD []) "driftIncrement").getD "0") with
    | none => rw [hcur] at hAt; simp at hAt
    | some n =>
      rw [hcur] at hAt
      simp only [Except.ok.injEq, Prod.mk.injEq] at hAt
      obtain ⟨hnv, hsp1⟩ := hAt
      subst hnv
      subst hsp1
      split at h
      · rename_i e hsp
        exact absurd hsp (storePlanIfAny_redis_ne_error d _ k p.planOutput e)
      · rename_i sp hsp
        rcases storePlanIfAny_redis_ok d _ k p.planOutput sp hsp with h1 | h1 <;>
        · subst h1
          split at h
          · simp at h
          · rename_i sB hB
            simp only [Except.ok.injEq] at h
            subst h
            rcases breach_redis_ok d T cfg _ _ _ sB hB with h2 | ⟨issue, h2⟩ <;>
            · subst h2
              refine ⟨by simp [envInfoOf], fun f hf1 hf2 hf3 hf4 => by
                simp [envInfoOf, storeField_storeHSet, hf1, hf2, hf3, hf4,
                  Ne.symm hf1, Ne.symm hf2, Ne.symm hf3, Ne.symm hf4], by
                simp [envInfoOf, storeHSet, hashSet_ne_nil]⟩

theorem reset_redis_fields (d : String) (T : IssueTracker) (s : Store)
    (env : EnvironmentInfo) (op : String) (s₂ : Store)
    (h : resetDriftIncrement (redisStorage d) T s env op = .ok s₂) :
    storeField s₂ env.key "driftIncrement" = "0" ∧
    (∀ f, f ≠ "driftIncrement" → f ≠ "issueID" → f ≠ "issueURL" →
      storeField s₂ env.key f = storeField s env.key f) ∧
    ((s₂ env.key).getD []) ≠ [] := by
  rcases reset_redis_ok d T s env op s₂ h with h1 | h1 <;>
  · subst h1
    refine ⟨by simp, fun f hf1 hf2 hf3 => by
      simp [storeField_storeHSet, hf1, hf2, hf3,
        Ne.symm hf1, Ne.symm hf2, Ne.symm hf3], by
      simp [storeHSet, hashSet_ne_nil]⟩

@[simp] theorem goAtoi_zero_lit : goAtoi "0" = some 0 := by decide

theorem run_redis_fields (d now : String) (T : IssueTracker) (cfg : Config) (s : Store)
    (p : Payload) (r : DriftResult) (s' : Store) (key : String)
    (hkey : key = generateKey p.repoName p.environment)
    (h : processDriftDetection (redisStorage d) T cfg now s p = .ok (r, s')) :
    (escalationCond cfg p →
      storeField s' key "driftIncrement" = toString (priorDrift s key + 1)) ∧
    (¬escalationCond cfg p → resolutionCond cfg p →
      storeField s' key "driftIncrement" = "0") ∧
    (¬escalationCond cfg p → ¬resolutionCond cfg p →
      storeField s' key "driftIncrement" =
        (if (s key).isSome then storeField s key "driftIncrement" else "0")) ∧
    (storeField s' key "environmentTier" =
      (if (s key).isSome then storeField s key "environmentTier" else p.environmentTier)) ∧
    (storeField s' key "projectID" =
      (if (s key).isSome then storeField s key "projectID" else p.projectID)) ∧
    (storeField s' key "driftThreshold" =
      (if (s key).isSome then storeField s key "driftThreshold"
       else initThreshold d (effThreshold cfg p))) := by
  subst hkey
  unfold processDriftDetection at h
  simp only [redisStorage] at h
  by_cases hex : (s (generateKey p.repoName p.environment)).isSome = true
  · simp only [redisInitEnvironment, if_pos hex, redisUpdateOperationLog] at h
    by_cases hesc : escalationCond cfg p
    · have hnres : ¬resolutionCond cfg p := escal_not_resol cfg p hesc
      rw [if_pos hesc] at h
      simp only [if_neg hnres] at h
      split at h
      · simp at h
      · rename_i sE hE
        obtain ⟨hinc, hfr, hne⟩ := escalStep_redis_fields d T cfg _ p _ sE hE
        simp only [redisGetEnvironmentData, if_neg hne] at h
        simp only [Except.ok.injEq, Prod.mk.injEq] at h
        obtain ⟨hhr, hs'⟩ := h
        subst hs'
        refine ⟨fun _ => ?_, fun hne2 _ => absurd hesc hne2,
          fun hne2 _ => absurd hesc hne2, ?_, ?_, ?_⟩
        · rw [hinc]
          simp [priorDrift, storeHSet_at_key]
        · rw [hfr "environmentTier" (by decide) (by decide) (by decide) (by decide)]
          simp [hex]
        · rw [hfr "projectID" (by decide) (by decide) (by decide) (by decide)]
          simp [hex]
        · rw [hfr "driftThreshold" (by decide) (by decide) (by decide) (by decide)]
          simp [hex]
    · rw [if_neg hesc] at h
      by_cases hres : resolutionCond cfg p
      · simp only [if_pos hres] at h
        cases hR : resetDriftIncrement
            { initEnvironment := redisInitEnvironment d,
              updateOperationLog := redisUpdateOperationLog,
              incrementDrift := redisIncrementDrift, resetDrift := redisResetDrift,
              getEnvironmentData := redisGetEnvironmentData, setField := redisSetField,
              getField := redisGetField, storePlanOutput := redisStorePlanOutput }
            T (storeHSet s (generateKey p.repoName p.environment) "log"
              ("\x7b\"timestamp\": \"" ++ effTimestamp now p ++ "\", \"operation\": \"" ++
                p.operation ++ "\"\x7d"))
            (envInfoOf p (generateKey p.repoName p.environment)) p.operation with
        | error e => rw [hR] at h; simp at h
        | ok sR =>
          rw [hR] at h
          have hR2 : resetDriftIncrement (redisStorage d) T
              (storeHSet s (generateKey p.repoName p.environment) "log"
                ("\x7b\"timestamp\": \"" ++ effTimestamp now p ++ "\", \"operation\": \"" ++
                  p.operation ++ "\"\x7d"))
              (envInfoOf p (generateKey p.repoName p.environment)) p.operation = .ok sR := by
            rw [redisStorage]; exact hR
          obtain ⟨hz, hfr, hne⟩ := reset_redis_fields d T _ _ _ sR hR2
          simp only [envInfoOf] at hz hfr hne
          simp only [redisGetEnvironmentData, if_neg hne] at h
          simp only [Except.ok.injEq, Prod.mk.injEq] at h
          obtain ⟨hhr, hs'⟩ := h
          subst hs'
          refine ⟨fun hE => absurd hE hesc, fun _ _ => hz, fun _ hnr => absurd hres hnr,
            ?_, ?_, ?_⟩
          · rw [hfr "environmentTier" (by decide) (by decide) (by decide)]
            simp [hex]
          · rw [hfr "projectID" (by decide) (by decide) (by decide)]
            simp [hex]
          · rw [hfr "driftThreshold" (by decide) (by decide) (by decide)]
            simp [hex]
      · simp only [if_neg hres] at h
        have hne : ((storeHSet s (generateKey p.repoName p.environment) "log"
            ("\x7b\"timestamp\": \"" ++ effTimestamp now p ++ "\", \"operation\": \"" ++
              p.operation ++ "\"\x7d")) (generateKey p.repoName p.environment)).getD [] ≠ [] := by
          simp [storeHSet_at_key, hashSet_ne_nil]
        simp only [redisGetEnvironmentData, if_neg hne] at h
        simp only [Except.ok.injEq, Prod.mk.injEq] at h
        obtain ⟨hhr, hs'⟩ := h
        subst hs'
        refine ⟨fun hE => absurd hE hesc, fun _ hr => absurd hr hres, fun _ _ => ?_,
          ?_, ?_, ?_⟩ <;> simp [hex]
  · have hnone : s (generateKey p.repoName p.environment) = none :=
      Option.not_isSome_iff_eq_none.mp (by simpa using hex)
    simp only [redisInitEnvironment, hex, Bool.false_eq_true, if_false,
      redisUpdateOperationLog] at h
    by_cases hesc : escalationCond cfg p
    · have hnres : ¬resolutionCond cfg p := escal_not_resol cfg p hesc
      rw [if_pos hesc] at h
      simp only [if_neg hnres] at h
      split at h
      · simp at h
      · rename_i sE hE
        obtain ⟨hinc, hfr, hne⟩ := escalStep_redis_fields d T cfg _ p _ sE hE
        simp only [redisGetEnvironmentData, if_neg hne] at h
        simp only [Except.ok.injEq, Prod.mk.injEq] at h
        obtain ⟨hhr, hs'⟩ := h
        subst hs'
        refine ⟨fun _ => ?_, fun hne2 _ => absurd hesc hne2,
          fun hne2 _ => absurd hesc hne2, ?_, ?_, ?_⟩
        · rw [hinc]
          simp [priorDrift, hnone, storeHSet_at_key, storeSetKey, hashGet]
        · rw [hfr "environmentTier" (by decide) (by decide) (by decide) (by decide)]
          simp [hex, storeField_storeHSet, storeField_storeSetKey]
        · rw [hfr "projectID" (by decide) (by decide) (by decide) (by decide)]
          simp [hex, storeField_storeHSet, storeField_storeSetKey]
        · rw [hfr "driftThreshold" (by decide) (by decide) (by decide) (by decide)]
          simp [hex, storeField_storeHSet, storeField_storeSetKey]
    · rw [if_neg hesc] at h
      by_cases hres : resolutionCond cfg p
      · simp only [if_pos hres] at h
        cases hR : resetDriftIncrement
            { initEnvironment := redisInitEnvironment d,
              updateOperationLog := redisUpdateOperationLog,
              incrementDrift := redisIncrementDrift, resetDrift := redisResetDrift,
              getEnvironmentData := redisGetEnvironmentData, setField := redisSetField,
              getField := redisGetField, storePlanOutput := redisStorePlanOutput }
            T (storeHSet (storeSetKey s (generateKey p.repoName p.environment)
                (initHash d p.environmentTier p.projectID (effThreshold cfg p)))
              (generateKey p.repoName p.environment) "log"
              ("\x7b\"timestamp\": \"" ++ effTimestamp now p ++ "\", \"operation\": \"" ++
                p.operation ++ "\"\x7d"))
            (envInfoOf p (generateKey p.repoName p.environment)) p.operation with
        | error e => rw [hR] at h; simp at h
        | ok sR =>
          rw [hR] at h
          have hR2 : resetDriftIncrement (redisStorage d) T
              (storeHSet (storeSetKey s (generateKey p.repoName p.environment)
                  (initHash d p.environmentTier p.projectID (effThreshold cfg p)))
                (generateKey p.repoName p.environment) "log"
                ("\x7b\"timestamp\": \"" ++ effTimestamp now p ++ "\", \"operation\": \"" ++
                  p.operation ++ "\"\x7d"))
              (envInfoOf p (generateKey p.repoName p.environment)) p.operation = .ok sR := by
            rw [redisStorage]; exact hR
          obtain ⟨hz, hfr, hne⟩ := reset_redis_fields d T _ _ _ sR hR2
          simp only [envInfoOf] at hz hfr hne
          simp only [redisGetEnvironmentData, if_neg hne] at h
          simp only [Except.ok.injEq, Prod.mk.injEq] at h
          obtain ⟨hhr, hs'⟩ := h
          subst hs'
          refine ⟨fun hE => absurd hE hesc, fun _ _ => hz, fun _ hnr => absurd hres hnr,
            ?_, ?_, ?_⟩
          · rw [hfr "environmentTier" (by decide) (by decide) (by decide)]
            simp [hex, storeField_storeHSet, storeField_storeSetKey]
          · rw [hfr "projectID" (by decide) (by decide) (by decide)]
            simp [hex, storeField_storeHSet, storeField_storeSetKey]
          · rw [hfr "driftThreshold" (by decide) (by decide) (by decide)]
            simp [hex, storeField_storeHSet, storeField_storeSetKey]
      · simp only [if_neg hres] at h
        have hne : ((storeHSet (storeSetKey s (generateKey p.repoName p.environment)
            (initHash d p.environmentTier p.projectID (effThreshold cfg p)))
            (generateKey p.repoName p.environment) "log"
            ("\x7b\"timestamp\": \"" ++ effTimestamp now p ++ "\", \"operation\": \"" ++
              p.operation ++ "\"\x7d")) (generateKey p.repoName p.environment)).getD [] ≠ [] := by
          simp [storeHSet_at_key, hashSet_ne_nil]
        simp only [redisGetEnvironmentData, if_neg hne] at h
        simp only [Except.ok.injEq, Prod.mk.injEq] at h
        obtain ⟨hhr, hs'⟩ := h
        subst hs'
        refine ⟨fun hE => absurd hE hesc, fun _ hr => absurd hr hres, fun _ _ => ?_,
          ?_, ?_, ?_⟩ <;>
          simp [hex, storeField_storeHSet, storeField_storeSetKey]

/-! Claim theorems. -/

/-- C1: a processed report increments the drift counter by exactly one
(through the store increment) precisely when the report is scheduled, its
operation is "plan", its exit code is 2 and its branch equals the
configured comparison branch; when any of the four conditions fails the
counter is not incremented by the report: it keeps its previous value, or
becomes zero on a resolving report. -/
theorem escalation_increments_iff_conditions (d now : String) (T : IssueTracker)
    (cfg : Config) (s : Store) (p : Payload) (r : DriftResult) (s' : Store)
    (h : processDriftDetection (redisStorage d) T cfg now s p = .ok (r, s')) :
    ((p.scheduled = true ∧ p.operation = "plan" ∧ p.exitCode = 2 ∧
        p.branch = cfg.comparisonBranch) →
      storeField s' (generateKey p.repoName p.environment) "driftIncrement" =
        toString (priorDrift s (generateKey p.repoName p.environment) + 1)) ∧
    (¬(p.scheduled = true ∧ p.operation = "plan" ∧ p.exitCode = 2 ∧
        p.branch = cfg.comparisonBranch) →
      storeField s' (generateKey p.repoName p.environment) "driftIncrement" =
        (if resolutionCond cfg p then "0"
         else if (s (generateKey p.repoName p.environment)).isSome then
           storeField s (generateKey p.repoName p.environment) "driftIncrement"
         else "0")) := by
  obtain ⟨cA, cB, cC, _, _, _⟩ := run_redis_fields d now T cfg s p r s' _ rfl h
  refine ⟨cA, fun hnE => ?_⟩
  by_cases hres : resolutionCond cfg p
  · rw [if_pos hres]; exact cB hnE hres
  · rw [if_neg hres]; exact cC hnE hres

theorem escalation_increments_iff_conditions_witness :
    storeField (storeOfRun (processDriftDetection (redisStorage "") plainTracker
        exampleConfig "now" emptyStore examplePlanPayload))
      (generateKey "svc" "prod") "driftIncrement" =
      toString (priorDrift emptyStore (generateKey "svc" "prod") + 1) :=
  (escalation_increments_iff_conditions "" "now" plainTracker exampleConfig emptyStore
      examplePlanPayload
      (resultOfRun (processDriftDetection (redisStorage "") plainTracker exampleConfig
        "now" emptyStore examplePlanPayload))
      (storeOfRun (processDriftDetection (redisStorage "") plainTracker exampleConfig
        "now" emptyStore examplePlanPayload))
      (by rfl)).1 ⟨rfl, rfl, rfl, rfl⟩

/-- C2: the reset procedure zeroes the drift counter exactly when the
report operation is "apply" (any exit code) or a plan with exit code 0 on
the comparison branch; when the resolution condition fails and the report
is not an escalation the counter is unchanged; and no report satisfies both
the escalation and the resolution condition. -/
theorem resolution_resets_iff_conditions (d now : String) (T : IssueTracker)
    (cfg : Config) (s : Store) (p : Payload) (r : DriftResult) (s' : Store)
    (h : processDriftDetection (redisStorage d) T cfg now s p = .ok (r, s')) :
    ((p.operation = "apply" ∨ (p.operation = "plan" ∧ p.exitCode = 0 ∧
        p.branch = cfg.comparisonBranch)) →
      storeField s' (generateKey p.repoName p.environment) "driftIncrement" = "0") ∧
    (¬(p.operation = "apply" ∨ (p.operation = "plan" ∧ p.exitCode = 0 ∧
        p.branch = cfg.comparisonBranch)) → ¬escalationCond cfg p →
      storeField s' (generateKey p.repoName p.environment) "driftIncrement" =
        (if (s (generateKey p.repoName p.environment)).isSome then
          storeField s (generateKey p.repoName p.environment) "driftIncrement"
         else "0")) ∧
    (escalationCond cfg p → ¬resolutionCond cfg p) := by
  obtain ⟨cA, cB, cC, _, _, _⟩ := run_redis_fields d now T cfg s p r s' _ rfl h
  exact ⟨fun hres => cB (fun hesc => escal_not_resol cfg p hesc hres) hres,
    fun hnres hnesc => cC hnesc hnres, escal_not_resol cfg p⟩

theorem resolution_resets_iff_conditions_witness :
    storeField (storeOfRun (processDriftDetection (redisStorage "") plainTracker
        exampleConfig "now" exampleRecordStore exampleApplyPayload))
      (generateKey "svc" "prod") "driftIncrement" = "0" :=
  (resolution_resets_iff_conditions "" "now" plainTracker exampleConfig
      exampleRecordStore exampleApplyPayload
      (resultOfRun (processDriftDetection (redisStorage "") plainTracker exampleConfig
        "now" exampleRecordStore exampleApplyPayload))
      (storeOfRun (processDriftDetection (redisStorage "") plainTracker exampleConfig
        "now" exampleRecordStore exampleApplyPayload))
      (by rfl)).1 (Or.inl rfl)

/-- C5: the identity fields environmentTier, projectID and driftThreshold
are written by the first report for a key, which also initializes the drift
counter to zero; any further report for the same key leaves the three
fields unchanged whatever tier, project id or threshold the report
carries. -/
theorem identity_fields_init_once (d now : String) (T : IssueTracker)
    (cfg : Config) (s : Store) (p : Payload) (r : DriftResult) (s' : Store)
    (h : processDriftDetection (redisStorage d) T cfg now s p = .ok (r, s')) :
    (s (generateKey p.repoName p.environment) = none →
      storeField s' (generateKey p.repoName p.environment) "environmentTier" =
        p.environmentTier ∧
      storeField s' (generateKey p.repoName p.environment) "projectID" = p.projectID ∧
      storeField s' (generateKey p.repoName p.environment) "driftThreshold" =
        initThreshold d (effThreshold cfg p) ∧
      (¬escalationCond cfg p → ¬resolutionCond cfg p →
        storeField s' (generateKey p.repoName p.environment) "driftIncrement" = "0")) ∧
    ((s (generateKey p.repoName p.environment)).isSome = true →
      storeField s' (generateKey p.repoName p.environment) "environmentTier" =
        storeField s (generateKey p.repoName p.environment) "environmentTier" ∧
      storeField s' (generateKey p.repoName p.environment) "projectID" =
        storeField s (generateKey p.repoName p.environment) "projectID" ∧
      storeField s' (generateKey p.repoName p.environment) "driftThreshold" =
        storeField s (generateKey p.repoName p.environment) "driftThreshold") := by
  obtain ⟨_, _, cC, c4, c5, c6⟩ := run_redis_fields d now T cfg s p r s' _ rfl h
  refine ⟨fun hnone => ?_, fun hsome => ?_⟩
  · simp only [hnone, Option.isSome_none, Bool.false_eq_true, if_false] at c4 c5 c6
    exact ⟨c4, c5, c6, fun hnE hnR => by
      simpa [hnone] using cC hnE hnR⟩
  · simp only [hsome, if_true] at c4 c5 c6
    exact ⟨c4, c5, c6⟩

theorem identity_fields_init_once_witness :
    storeField (storeOfRun (processDriftDetection (redisStorage "") plainTracker
        exampleConfig "now" emptyStore examplePlanPayload))
      (generateKey "svc" "prod") "environmentTier" = "prod" :=
  ((identity_fields_init_once "" "now" plainTracker exampleConfig emptyStore
      examplePlanPayload
      (resultOfRun (processDriftDetection (redisStorage "") plainTracker exampleConfig
        "now" emptyStore examplePlanPayload))
      (storeOfRun (processDriftDetection (redisStorage "") plainTracker exampleConfig
        "now" emptyStore examplePlanPayload))
      (by rfl)).1 rfl).1

/-- C6: the threshold check reports a breach exactly when the drift count
is at least the effective threshold: the count equal to the threshold is
breached, the count one below is not, and the check returns the store
state it was given, performing no writes. -/
theorem checkThreshold_iff_threshold_le (d : String) (cfg : Config) (s : Store)
    (key : String) (t : Int)
    (hthr : getThreshold (redisStorage d) cfg s key = .ok (t, s)) :
    (∀ n : Int, checkThreshold (redisStorage d) cfg s key n = .ok (decide (n ≥ t), s)) ∧
    checkThreshold (redisStorage d) cfg s key t = .ok (true, s) ∧
    checkThreshold (redisStorage d) cfg s key (t - 1) = .ok (false, s) := by
  have hmain : ∀ n : Int,
      checkThreshold (redisStorage d) cfg s key n = .ok (decide (n ≥ t), s) := by
    intro n
    unfold checkThreshold
    rw [hthr]
  refine ⟨hmain, ?_, ?_⟩
  · rw [hmain t]
    simp
  · rw [hmain (t - 1)]
    have hlt : ¬(t - 1 ≥ t) := by omega
    simp [hlt]

theorem checkThreshold_iff_threshold_le_witness :
    checkThreshold (redisStorage "") exampleConfig exampleRecordStore "svc:prod" 1 =
      .ok (true, exampleRecordStore) :=
  (checkThreshold_iff_threshold_le "" exampleConfig exampleRecordStore "svc:prod" 1
    (by rfl)).2.1

/-- C8: the threshold of a key is the stored driftThreshold value when it is
present and parses as an integer, the configured process-wide default when
the field is empty or absent, and an invalid-threshold error exactly when
the stored value is non-empty but does not parse. -/
theorem getThreshold_value_cases (d : String) (cfg : Config) (s : Store)
    (key : String) :
    (storeField s key "driftThreshold" = "" →
      getThreshold (redisStorage d) cfg s key = .ok (cfg.driftThreshold, s)) ∧
    (∀ t : Int, storeField s key "driftThreshold" ≠ "" →
      goAtoi (storeField s key "driftThreshold") = some t →
      getThreshold (redisStorage d) cfg s key = .ok (t, s)) ∧
    (storeField s key "driftThreshold" ≠ "" →
      goAtoi (storeField s key "driftThreshold") = none →
      getThreshold (redisStorage d) cfg s key =
        .error (.wrap "invalid threshold value" (.base "strconv.Atoi: invalid syntax"))) := by
  refine ⟨fun hemp => ?_, fun t hne hp => ?_, fun hne hp => ?_⟩
  · rw [getThreshold_redis, if_pos hemp]
  · rw [getThreshold_redis, if_neg hne, hp]
  · rw [getThreshold_redis, if_neg hne, hp]

theorem getThreshold_value_cases_witness :
    getThreshold (redisStorage "") exampleConfig exampleRecordStore "svc:prod" =
      .ok (1, exampleRecordStore) :=
  (getThreshold_value_cases "" exampleConfig exampleRecordStore "svc:prod").2.1 1
    (by decide) (by decide)

/-- C9: validation accepts a payload exactly when the six required fields
are non-empty, and otherwise reports the first missing field in the fixed
order repoName, branchName, environment, environmentTier, projectId,
operation; validation is a pure function of the payload and touches no
state. -/
theorem validatePayload_first_missing_field (p : Payload) :
    (validatePayload p = none ↔
      (p.repoName ≠ "" ∧ p.branch ≠ "" ∧ p.environment ≠ "" ∧
       p.environmentTier ≠ "" ∧ p.projectID ≠ "" ∧ p.operation ≠ "")) ∧
    (p.repoName = "" →
      validatePayload p = some "missing repoName in payload") ∧
    (p.repoName ≠ "" → p.branch = "" →
      validatePayload p = some "missing branchName in payload") ∧
    (p.repoName ≠ "" → p.branch ≠ "" → p.environment = "" →
      validatePayload p = some "missing environment in payload") ∧
    (p.repoName ≠ "" → p.branch ≠ "" → p.environment ≠ "" → p.environmentTier = "" →
      validatePayload p = some "missing environmentTier in payload") ∧
    (p.repoName ≠ "" → p.branch ≠ "" → p.environment ≠ "" → p.environmentTier ≠ "" →
      p.projectID = "" →
      validatePayload p = some "missing projectId in payload") ∧
    (p.repoName ≠ "" → p.branch ≠ "" → p.environment ≠ "" → p.environmentTier ≠ "" →
      p.projectID ≠ "" → p.operation = "" →
      validatePayload p = some "invalid terraform operation in payload") := by
  refine ⟨?_, fun h1 => by simp [validatePayload, h1],
    fun h1 h2 => by simp [validatePayload, h1, h2],
    fun h1 h2 h3 => by simp [validatePayload, h1, h2, h3],
    fun h1 h2 h3 h4 => by simp [validatePayload, h1, h2, h3, h4],
    fun h1 h2 h3 h4 h5 => by simp [validatePayload, h1, h2, h3, h4, h5],
    fun h1 h2 h3 h4 h5 h6 => by simp [validatePayload, h1, h2, h3, h4, h5, h6]⟩
  constructor
  · intro hnone
    unfold validatePayload at hnone
    split_ifs at hnone
    simp_all
  · rintro ⟨h1, h2, h3, h4, h5, h6⟩
    simp [validatePayload, h1, h2, h3, h4, h5, h6]

theorem validatePayload_first_missing_field_witness :
    validatePayload examplePlanPayload = none :=
  (validatePayload_first_missing_field examplePlanPayload).1.mpr
    ⟨by decide, by decide, by decide, by decide, by decide, by decide⟩

/-- C10: when the issue tracker in use is not the concrete GitLab client,
a threshold breach with the count at the threshold performs neither an
issue update nor an issue creation, writes neither issueID nor issueURL,
and returns success with the store unchanged; because the conclusion holds
for every tracker with a failed type assertion, whatever its update and
creation behavior, those two operations are never invoked. -/
theorem breach_non_gitlab_noop (d : String) (T : IssueTracker) (cfg : Config)
    (s : Store) (env : EnvironmentInfo) (n t pid : Int)
    (hg : T.isGitLab = false)
    (hthr : getThreshold (redisStorage d) cfg s env.key = .ok (t, s))
    (hbr : n ≥ t)
    (hpid : goAtoi env.projectID = some pid) :
    ((if storeField s env.key "issueID" = "" then (0 : Int)
      else (goAtoi (storeField s env.key "issueID")).getD 0) ≤ 0 →
      handleThresholdBreach (redisStorage d) T cfg s env n = .ok s) ∧
    (∀ i b, goAtoi (storeField s env.key "issueID") = some i → 0 < i →
      T.getIssueStatus pid i = .ok b →
      handleThresholdBreach (redisStorage d) T cfg s env n = .ok s) := by
  have hct : checkThreshold (redisStorage d) cfg s env.key n = .ok (decide (n ≥ t), s) := by
    unfold checkThreshold
    rw [hthr]
  have hdec : decide (n ≥ t) = true := decide_eq_true hbr
  constructor
  · intro hle
    have hnotpos : ¬(0 < if storeField s env.key "issueID" = "" then (0 : Int)
        else (goAtoi (storeField s env.key "issueID")).getD 0) := by omega
    simp [handleThresholdBreach, hct, hdec, hpid, getField_redis,
      handleBreachTail, hthr, handleBreachCreate, hg, hnotpos]
  · intro i b hi hipos hst
    have hne : storeField s env.key "issueID" ≠ "" := by
      intro he
      rw [he] at hi
      simp [goAtoi] at hi
    simp [handleThresholdBreach, hct, hdec, hpid, getField_redis,
      handleBreachTail, hthr, handleBreachCreate, hg, hne, hi, hipos, hst]

theorem breach_non_gitlab_noop_witness :
    handleThresholdBreach (redisStorage "") plainTracker exampleConfig exampleRecordStore
      exampleEnv 2 = .ok exampleRecordStore :=
  (breach_non_gitlab_noop "" plainTracker exampleConfig exampleRecordStore exampleEnv
      2 1 42 rfl (by rfl) (by decide) (by decide)).2 5 false (by decide) (by decide)
    (by rfl)

/-- C4: during a threshold breach against the GitLab client, a stored
issueId that parses to a positive integer and is reported open leads to an
update of that issue with the store unchanged, so the stored issueId is the
same afterwards; a stored issueId that is absent or non-positive, or one
whose issue is reported closed, leads to the creation of a new issue whose
id and URL are persisted into the record, so a fresh id changes the stored
value. -/
theorem breach_update_or_create (d : String) (T : IssueTracker) (cfg : Config)
    (s : Store) (env : EnvironmentInfo) (n t pid : Int)
    (hg : T.isGitLab = true)
    (hthr : getThreshold (redisStorage d) cfg s env.key = .ok (t, s))
    (hbr : n ≥ t)
    (hpid : goAtoi env.projectID = some pid) :
    (∀ i, goAtoi (storeField s env.key "issueID") = some i → 0 < i →
      T.getIssueStatus pid i = .ok true →
      T.updateIssueDescription pid i env.repoName env.environment n t
        (storeField s env.key "planOutput") = .ok () →
      handleThresholdBreach (redisStorage d) T cfg s env n = .ok s) ∧
    (∀ issue : Issue,
      (if storeField s env.key "issueID" = "" then (0 : Int)
       else (goAtoi (storeField s env.key "issueID")).getD 0) ≤ 0 →
      T.createDriftIssue pid env.repoName env.environment n t
        (storeField s env.key "planOutput") = .ok issue →
      handleThresholdBreach (redisStorage d) T cfg s env n =
        .ok (storeHSet (storeHSet s env.key "issueID" (toString issue.id))
          env.key "issueURL" issue.webURL) ∧
      storeField (storeHSet (storeHSet s env.key "issueID" (toString issue.id))
        env.key "issueURL" issue.webURL) env.key "issueID" = toString issue.id ∧
      storeField (storeHSet (storeHSet s env.key "issueID" (toString issue.id))
        env.key "issueURL" issue.webURL) env.key "issueURL" = issue.webURL) ∧
    (∀ i (issue : Issue), goAtoi (storeField s env.key "issueID") = some i → 0 < i →
      T.getIssueStatus pid i = .ok false →
      T.createDriftIssue pid env.repoName env.environment n t
        (storeField s env.key "planOutput") = .ok issue →
      handleThresholdBreach (redisStorage d) T cfg s env n =
        .ok (storeHSet (storeHSet s env.key "issueID" (toString issue.id))
          env.key "issueURL" issue.webURL) ∧
      (toString issue.id ≠ storeField s env.key "issueID" →
        storeField (storeHSet (storeHSet s env.key "issueID" (toString issue.id))
          env.key "issueURL" issue.webURL) env.key "issueID" ≠
          storeField s env.key "issueID")) := by
  have hct : checkThreshold (redisStorage d) cfg s env.key n = .ok (decide (n ≥ t), s) := by
    unfold checkThreshold
    rw [hthr]
  have hdec : decide (n ≥ t) = true := decide_eq_true hbr
  refine ⟨?_, ?_, ?_⟩
  · intro i hi hipos hst hupd
    have hne : storeField s env.key "issueID" ≠ "" := by
      intro he
      rw [he] at hi
      simp [goAtoi] at hi
    simp [handleThresholdBreach, hct, hdec, hpid, getField_redis,
      handleBreachTail, hthr, hg, hne, hi, hipos, hst, hupd]
  · intro issue hle hcr
    have hnotpos : ¬(0 < if storeField s env.key "issueID" = "" then (0 : Int)
        else (goAtoi (storeField s env.key "issueID")).getD 0) := by omega
    refine ⟨?_, by simp, by simp⟩
    simp [handleThresholdBreach, hct, hdec, hpid, getField_redis,
      handleBreachTail, hthr, handleBreachCreate, hg, hnotpos, hcr, setField_redis]
  · intro i issue hi hipos hst hcr
    have hne : storeField s env.key "issueID" ≠ "" := by
      intro he
      rw [he] at hi
      simp [goAtoi] at hi
    refine ⟨?_, fun hneq => by simp [hneq]⟩
    simp [handleThresholdBreach, hct, hdec, hpid, getField_redis,
      handleBreachTail, hthr, handleBreachCreate, hg, hne, hi, hipos, hst, hcr,
      setField_redis]

theorem breach_update_or_create_witness :
    handleThresholdBreach (redisStorage "") gitlabTracker exampleConfig
      exampleRecordStore exampleEnv 2 = .ok exampleRecordStore :=
  (breach_update_or_create "" gitlabTracker exampleConfig exampleRecordStore exampleEnv
      2 1 42 rfl (by rfl) (by decide) (by decide)).1 5 (by decide) (by decide) (by rfl)
    (by rfl)

/-- C7: during the reset procedure, with no stored issueId the procedure is
a pure counter reset whose outcome is the same for every tracker (no
tracker call can influence it); with a stored positive issueId reported
closed, the counter is reset and the issueID and issueURL fields keep their
previous values; with it reported open and the close call succeeding, both
fields are cleared; and with the close call failing, the procedure fails
and nothing is cleared. -/
theorem reset_issue_cleanup_cases (d : String) (T : IssueTracker) (s : Store)
    (env : EnvironmentInfo) (op : String) :
    (storeField s env.key "issueID" = "" →
      ∀ T' : IssueTracker, resetDriftIncrement (redisStorage d) T' s env op =
        .ok (storeHSet s env.key "driftIncrement" "0")) ∧
    (∀ i pid, goAtoi (storeField s env.key "issueID") = some i → 0 < i →
      goAtoi env.projectID = some pid →
      T.getIssueStatus pid i = .ok false →
      resetDriftIncrement (redisStorage d) T s env op =
        .ok (storeHSet s env.key "driftIncrement" "0") ∧
      storeField (storeHSet s env.key "driftIncrement" "0") env.key "issueID" =
        storeField s env.key "issueID" ∧
      storeField (storeHSet s env.key "driftIncrement" "0") env.key "issueURL" =
        storeField s env.key "issueURL") ∧
    (∀ i pid, goAtoi (storeField s env.key "issueID") = some i → 0 < i →
      goAtoi env.projectID = some pid →
      T.getIssueStatus pid i = .ok true → T.closeIssue pid i op = .ok () →
      resetDriftIncrement (redisStorage d) T s env op =
        .ok (storeHSet (storeHSet (storeHSet s env.key "driftIncrement" "0")
          env.key "issueID" "") env.key "issueURL" "") ∧
      storeField (storeHSet (storeHSet (storeHSet s env.key "driftIncrement" "0")
        env.key "issueID" "") env.key "issueURL" "") env.key "issueID" = "" ∧
      storeField (storeHSet (storeHSet (storeHSet s env.key "driftIncrement" "0")
        env.key "issueID" "") env.key "issueURL" "") env.key "issueURL" = "") ∧
    (∀ i pid e, goAtoi (storeField s env.key "issueID") = some i → 0 < i →
      goAtoi env.projectID = some pid →
      T.getIssueStatus pid i = .ok true → T.closeIssue pid i op = .error e →
      resetDriftIncrement (redisStorage d) T s env op =
        .error (.wrap "failed to delete issue" e)) := by
  refine ⟨?_, ?_, ?_, ?_⟩
  · intro hid T'
    simp [resetDriftIncrement, resetDrift_redis, getField_redis, hid]
  · intro i pid hi hipos hpid hst
    have hne : storeField s env.key "issueID" ≠ "" := by
      intro he
      rw [he] at hi
      simp [goAtoi] at hi
    have hnle : ¬(i ≤ 0) := by omega
    refine ⟨?_, by simp, by simp⟩
    simp [resetDriftIncrement, resetDrift_redis, getField_redis, hne, hi, hnle,
      hpid, hst]
  · intro i pid hi hipos hpid hst hcl
    have hne : storeField s env.key "issueID" ≠ "" := by
      intro he
      rw [he] at hi
      simp [goAtoi] at hi
    have hnle : ¬(i ≤ 0) := by omega
    refine ⟨?_, by simp, by simp⟩
    simp [resetDriftIncrement, resetDrift_redis, getField_redis, setField_redis,
      hne, hi, hnle, hpid, hst, hcl]
  · intro i pid e hi hipos hpid hst hcl
    have hne : storeField s env.key "issueID" ≠ "" := by
      intro he
      rw [he] at hi
      simp [goAtoi] at hi
    have hnle : ¬(i ≤ 0) := by omega
    simp [resetDriftIncrement, resetDrift_redis, getField_redis, hne, hi, hnle,
      hpid, hst, hcl]

theorem reset_issue_cleanup_cases_witness :
    resetDriftIncrement (redisStorage "") plainTracker exampleRecordStore exampleEnv
      "apply" = .ok (storeHSet exampleRecordStore "svc:prod" "driftIncrement" "0") :=
  ((reset_issue_cleanup_cases "" plainTracker exampleRecordStore exampleEnv
      "apply").2.1 5 42 (by decide) (by decide) (by decide) (by rfl)).1

/-- C3 counterexample: a storage whose issueID reads always fail still lets
an apply report complete successfully: the reset step swallows the failed
read (drift.go lines 362 to 370), so not every storage failure during
steps 2 to 5 is surfaced to the caller. The first conjunct shows the very
call the run makes (at the post-reset store) failing, the second shows the
run succeeding. -/
theorem error_swallowed_counterexample :
    faultyIssueReadStorage.getField
      (storeHSet exampleRecordStore "svc:prod" "driftIncrement" "0") "svc:prod"
      "issueID" = .error (.base "redis: connection refused") ∧
    runSucceeds (processDriftDetection faultyIssueReadStorage plainTracker
      exampleConfig "now" exampleRecordStore exampleApplyPayload) = true :=
  ⟨rfl, rfl⟩

/-- C3 amended: every storage or tracker failure during the initialization,
log-update, escalation and resolution steps is surfaced to the caller
wrapped around the underlying error, with exactly two exceptions in the
code: the planOutput read inside the breach procedure (its failure is
ignored and the plan output treated as empty) and the issueID read inside
the reset procedure (its failure ends the reset successfully, skipping
issue cleanup). -/
theorem error_propagation_amended {σ : Type} (S : StorageRepository σ) (T : IssueTracker)
    (cfg : Config) (now : String) (p : Payload) :
    (∀ s e, S.initEnvironment s (generateKey p.repoName p.environment)
        p.environmentTier p.projectID (effThreshold cfg p) = .error e →
      processDriftDetection S T cfg now s p =
        .error (.wrap "failed to initialize environment" e)) ∧
    (∀ s b s1 e, S.initEnvironment s (generateKey p.repoName p.environment)
        p.environmentTier p.projectID (effThreshold cfg p) = .ok (b, s1) →
      S.updateOperationLog s1 (generateKey p.repoName p.environment)
        (effTimestamp now p) p.operation = .error e →
      processDriftDetection S T cfg now s p =
        .error (.wrap "failed to update operation log" e)) ∧
    (∀ s b s1 s2 e, S.initEnvironment s (generateKey p.repoName p.environment)
        p.environmentTier p.projectID (effThreshold cfg p) = .ok (b, s1) →
      S.updateOperationLog s1 (generateKey p.repoName p.environment)
        (effTimestamp now p) p.operation = .ok s2 →
      escalationCond cfg p →
      S.incrementDrift s2 (generateKey p.repoName p.environment) = .error e →
      processDriftDetection S T cfg now s p =
        .error (.wrap "failed to increment drift" e)) ∧
    (∀ s b s1 s2 n s3 e, S.initEnvironment s (generateKey p.repoName p.environment)
        p.environmentTier p.projectID (effThreshold cfg p) = .ok (b, s1) →
      S.updateOperationLog s1 (generateKey p.repoName p.environment)
        (effTimestamp now p) p.operation = .ok s2 →
      escalationCond cfg p →
      S.incrementDrift s2 (generateKey p.repoName p.environment) = .ok (n, s3) →
      p.planOutput ≠ "" →
      S.storePlanOutput s3 (generateKey p.repoName p.environment) p.planOutput = .error e →
      processDriftDetection S T cfg now s p =
        .error (.wrap "failed to store plan output" e)) ∧
    (∀ s b s1 s2 n s3 s4 e, S.initEnvironment s (generateKey p.repoName p.environment)
        p.environmentTier p.projectID (effThreshold cfg p) = .ok (b, s1) →
      S.updateOperationLog s1 (generateKey p.repoName p.environment)
        (effTimestamp now p) p.operation = .ok s2 →
      escalationCond cfg p →
      S.incrementDrift s2 (generateKey p.repoName p.environment) = .ok (n, s3) →
      storePlanIfAny S s3 (generateKey p.repoName p.environment) p.planOutput = .ok s4 →
      handleThresholdBreach S T cfg s4 (envInfoOf p (generateKey p.repoName p.environment)) n =
        .error e →
      processDriftDetection S T cfg now s p =
        .error (.wrap "failed to handle threshold breach" e)) ∧
    (∀ s b s1 s2 e, S.initEnvironment s (generateKey p.repoName p.environment)
        p.environmentTier p.projectID (effThreshold cfg p) = .ok (b, s1) →
      S.updateOperationLog s1 (generateKey p.repoName p.environment)
        (effTimestamp now p) p.operation = .ok s2 →
      ¬escalationCond cfg p → resolutionCond cfg p →
      resetDriftIncrement S T s2 (envInfoOf p (generateKey p.repoName p.environment))
        p.operation = .error e →
      processDriftDetection S T cfg now s p =
        .error (.wrap "failed to reset drift increment" e)) ∧
    (∀ s (env : EnvironmentInfo) (n : Int) e,
      checkThreshold S cfg s env.key n = .error e →
      handleThresholdBreach S T cfg s env n =
        .error (.wrap "failed to check threshold" e)) ∧
    (∀ s (env : EnvironmentInfo) (n pid : Int) s1 e,
      checkThreshold S cfg s env.key n = .ok (true, s1) →
      goAtoi env.projectID = some pid →
      S.getField s1 env.key "issueID" = .error e →
      handleThresholdBreach S T cfg s env n =
        .error (.wrap "failed to get existing issue ID" e)) ∧
    (∀ s (env : EnvironmentInfo) (n pid : Int) s1 str s2 e,
      checkThreshold S cfg s env.key n = .ok (true, s1) →
      goAtoi env.projectID = some pid →
      S.getField s1 env.key "issueID" = .ok (str, s2) →
      S.getField s2 env.key "planOutput" = .error e →
      handleThresholdBreach S T cfg s env n =
        handleBreachTail S T cfg s2 env n pid
          (if str = "" then 0 else (goAtoi str).getD 0) "") ∧
    (∀ s (env : EnvironmentInfo) (n pid eid : Int) (po : String) e,
      getThreshold S cfg s env.key = .error e →
      handleBreachTail S T cfg s env n pid eid po =
        .error (.wrap "failed to get threshold value" e)) ∧
    (∀ s (env : EnvironmentInfo) (n pid eid tv : Int) (po : String) s1 e,
      getThreshold S cfg s env.key = .ok (tv, s1) → 0 < eid →
      T.getIssueStatus pid eid = .error e →
      handleBreachTail S T cfg s env n pid eid po =
        .error (.wrap "failed to check existing issue status" e)) ∧
    (∀ s (env : EnvironmentInfo) (n pid eid tv : Int) (po : String) s1 e,
      getThreshold S cfg s env.key = .ok (tv, s1) → 0 < eid →
      T.getIssueStatus pid eid = .ok true → T.isGitLab = true →
      T.updateIssueDescription pid eid env.repoName env.environment n tv po = .error e →
      handleBreachTail S T cfg s env n pid eid po =
        .error (.wrap "failed to update existing issue" e)) ∧
    (∀ s (env : EnvironmentInfo) (n pid tv : Int) (po : String) e,
      T.isGitLab = true →
      T.createDriftIssue pid env.repoName env.environment n tv po = .error e →
      handleBreachCreate S T s env n pid tv po =
        .error (.wrap "failed to create drift issue" e)) ∧
    (∀ s (env : EnvironmentInfo) (n pid tv : Int) (po : String) (issue : Issue) e,
      T.isGitLab = true →
      T.createDriftIssue pid env.repoName env.environment n tv po = .ok issue →
      S.setField s env.key "issueID" (toString issue.id) = .error e →
      handleBreachCreate S T s env n pid tv po =
        .error (.wrap "failed to store issue ID" e)) ∧
    (∀ s (env : EnvironmentInfo) (n pid tv : Int) (po : String) (issue : Issue) s1 e,
      T.isGitLab = true →
      T.createDriftIssue pid env.repoName env.environment n tv po = .ok issue →
      S.setField s env.key "issueID" (toString issue.id) = .ok s1 →
      S.setField s1 env.key "issueURL" issue.webURL = .error e →
      handleBreachCreate S T s env n pid tv po =
        .error (.wrap "failed to store issue URL" e)) ∧
    (∀ s (env : EnvironmentInfo) (op : String) e,
      S.resetDrift s env.key = .error e →
      resetDriftIncrement S T s env op = .error (.wrap "failed to reset drift" e)) ∧
    (∀ s (env : EnvironmentInfo) (op : String) s1 e,
      S.resetDrift s env.key = .ok s1 →
      S.getField s1 env.key "issueID" = .error e →
      resetDriftIncrement S T s env op = .ok s1) ∧
    (∀ s (env : EnvironmentInfo) (op : String) s1 str s2 (i pid : Int) e,
      S.resetDrift s env.key = .ok s1 →
      S.getField s1 env.key "issueID" = .ok (str, s2) →
      goAtoi str = some i → 0 < i → goAtoi env.projectID = some pid →
      T.getIssueStatus pid i = .error e →
      resetDriftIncrement S T s env op =
        .error (.wrap "failed to check issue status" e)) ∧
    (∀ s (env : EnvironmentInfo) (op : String) s1 str s2 (i pid : Int) e,
      S.resetDrift s env.key = .ok s1 →
      S.getField s1 env.key "issueID" = .ok (str, s2) →
      goAtoi str = some i → 0 < i → goAtoi env.projectID = some pid →
      T.getIssueStatus pid i = .ok true → T.closeIssue pid i op = .error e →
      resetDriftIncrement S T s env op =
        .error (.wrap "failed to delete issue" e)) ∧
    (∀ s (env : EnvironmentInfo) (op : String) s1 str s2 (i pid : Int) e,
      S.resetDrift s env.key = .ok s1 →
      S.getField s1 env.key "issueID" = .ok (str, s2) →
      goAtoi str = some i → 0 < i → goAtoi env.projectID = some pid →
      T.getIssueStatus pid i = .ok true → T.closeIssue pid i op = .ok () →
      S.setField s2 env.key "issueID" "" = .error e →
      resetDriftIncrement S T s env op =
        .error (.wrap "failed to clear issue ID" e)) ∧
    (∀ s (env : EnvironmentInfo) (op : String) s1 str s2 s3 (i pid : Int) e,
      S.resetDrift s env.key = .ok s1 →
      S.getField s1 env.key "issueID" = .ok (str, s2) →
      goAtoi str = some i → 0 < i → goAtoi env.projectID = some pid →
      T.getIssueStatus pid i = .ok true → T.closeIssue pid i op = .ok () →
      S.setField s2 env.key "issueID" "" = .ok s3 →
      S.setField s3 env.key "issueURL" "" = .error e →
      resetDriftIncrement S T s env op =
        .error (.wrap "failed to clear issue URL" e)) := by
  refine ⟨?_, ?_, ?_, ?_, ?_, ?_, ?_, ?_, ?_, ?_, ?_, ?_, ?_, ?_, ?_, ?_, ?_, ?_,
    ?_, ?_, ?_⟩
  · intro s e hinit
    simp [processDriftDetection, hinit]
  · intro s b s1 e hinit hlog
    simp [processDriftDetection, hinit, hlog]
  · intro s b s1 s2 e hinit hlog hesc hincr
    simp only [processDriftDetection, hinit, hlog, if_pos hesc, escalationStep, hincr]
  · intro s b s1 s2 n s3 e hinit hlog hesc hincr hpo hsto
    simp only [processDriftDetection, hinit, hlog, if_pos hesc, escalationStep, hincr,
      storePlanIfAny, if_neg hpo, hsto]
  · intro s b s1 s2 n s3 s4 e hinit hlog hesc hincr hsp hbr
    simp only [processDriftDetection, hinit, hlog, if_pos hesc, escalationStep, hincr,
      hsp, hbr]
  · intro s b s1 s2 e hinit hlog hnesc hres hrst
    simp only [processDriftDetection, hinit, hlog, if_neg hnesc, if_pos hres, hrst]
  · intro s env n e hct
    simp [handleThresholdBreach, hct]
  · intro s env n pid s1 e hct hpid hgf
    simp [handleThresholdBreach, hct, hpid, hgf]
  · intro s env n pid s1 str s2 e hct hpid hgf1 hgf2
    simp [handleThresholdBreach, hct, hpid, hgf1, hgf2]
  · intro s env n pid eid po e hthr
    simp [handleBreachTail, hthr]
  · intro s env n pid eid tv po s1 e hthr heid hst
    simp [handleBreachTail, hthr, heid, hst]
  · intro s env n pid eid tv po s1 e hthr heid hst hg hupd
    simp [handleBreachTail, hthr, heid, hst, hg, hupd]
  · intro s env n pid tv po e hg hcr
    simp [handleBreachCreate, hg, hcr]
  · intro s env n pid tv po issue e hg hcr hsf
    simp [handleBreachCreate, hg, hcr, hsf]
  · intro s env n pid tv po issue s1 e hg hcr hsf1 hsf2
    simp [handleBreachCreate, hg, hcr, hsf1, hsf2]
  · intro s env op e hrd
    simp [resetDriftIncrement, hrd]
  · intro s env op s1 e hrd hgf
    simp [resetDriftIncrement, hrd, hgf]
  · intro s env op s1 str s2 i pid e hrd hgf hi hipos hpid hst
    have hne : str ≠ "" := by
      intro he
      rw [he] at hi
      simp [goAtoi] at hi
    have hnle : ¬(i ≤ 0) := by omega
    simp [resetDriftIncrement, hrd, hgf, hne, hi, hnle, hpid, hst]
  · intro s env op s1 str s2 i pid e hrd hgf hi hipos hpid hst hcl
    have hne : str ≠ "" := by
      intro he
      rw [he] at hi
      simp [goAtoi] at hi
    have hnle : ¬(i ≤ 0) := by omega
    simp [resetDriftIncrement, hrd, hgf, hne, hi, hnle, hpid, hst, hcl]
  · intro s env op s1 str s2 i pid e hrd hgf hi hipos hpid hst hcl hsf
    have hne : str ≠ "" := by
      intro he
      rw [he] at hi
      simp [goAtoi] at hi
    have hnle : ¬(i ≤ 0) := by omega
    simp [resetDriftIncrement, hrd, hgf, hne, hi, hnle, hpid, hst, hcl, hsf]
  · intro s env op s1 str s2 s3 i pid e hrd hgf hi hipos hpid hst hcl hsf1 hsf2
    have hne : str ≠ "" := by
      intro he
      rw [he] at hi
      simp [goAtoi] at hi
    have hnle : ¬(i ≤ 0) := by omega
    simp [resetDriftIncrement, hrd, hgf, hne, hi, hnle, hpid, hst, hcl, hsf1, hsf2]

theorem error_propagation_amended_witness :
    resetDriftIncrement faultyIssueReadStorage plainTracker exampleRecordStore
      exampleEnv "apply" =
      .ok (storeHSet exampleRecordStore "svc:prod" "driftIncrement" "0") := by
  obtain ⟨-, -, -, -, -, -, -, -, -, -, -, -, -, -, -, -, h17, -⟩ :=
    error_propagation_amended faultyIssueReadStorage plainTracker exampleConfig
      "now" exampleApplyPayload
  exact h17 exampleRecordStore exampleEnv "apply"
    (storeHSet exampleRecordStore "svc:prod" "driftIncrement" "0")
    (.base "redis: connection refused") rfl rfl

end DriftGuardian
